import Mathlib

/-!
Shallow embedding of `src/bot.py` (PCOS Care AI triage bot): the weighted
scoring engine (`PCOSScorer`) and the per-user conversation state machine
(`start`, `start_assessment`, `handle_responses` and its stage handlers,
`generate_report`).

Modelling notes, faithful to the source:

* A user's record is a Python dict that may or may not contain each of the
  keys `stage`, `cycle_regularity`, `cycle_length`, `symptoms`; key
  presence matters (e.g. `handle_responses` reads `record.get('stage')`,
  and `handle_symptoms` inserts `symptoms = []` when the key is absent),
  so each field is an `Option`.
* `user_data` is a dict keyed by user id; assignment overwrites or appends
  a binding and nothing ever deletes a key (`generate_report` does
  `user_data[user_id] = {}`, it does not `del`).
* Python's `int(s)` is modelled by `pyInt?` (strip surrounding whitespace,
  optional sign, decimal digits with single underscores allowed between
  digits); a failing parse is `none`, matching the `except` branches.
* `calculate_total_score` computes
  `round(min((score / 100) * 100, 100), 1)` on an integer `score` in
  [0, 110]; the double-precision round trip `n / 100 * 100` lands within
  far less than 0.05 of `n`, so rounding to one decimal returns exactly
  the integer value `min score 100`, which is what the model computes
  over `Nat`.  Every percentage the program ever produces is therefore an
  integral value in [0, 100], so `get_risk_category` is modelled on `Nat`.
* Message emission (`bot.send_message`) is modelled as a list of emitted
  strings per call.  Short messages keep their exact source text; the long
  markdown report of `generate_report` (whose body also contains the
  current date and the recommendation templates) is abbreviated to a
  string carrying the computed percentage and risk category, which is all
  the verified claims inspect.
-/

namespace PCOSBot

/-- `WEIGHTS['cycle_regularity']` from `src/bot.py`. -/
def weightsCycleRegularity : List (String × Nat) :=
  [("Regular", 0), ("Irregular", 35), ("None", 40)]

/-- `WEIGHTS['cycle_length']` from `src/bot.py`. -/
def weightsCycleLength : List (String × Nat) :=
  [("normal", 0), ("short", 15), ("long", 25), ("none", 30)]

/-- `WEIGHTS['symptoms']` from `src/bot.py`. -/
def weightsSymptoms : List (String × Nat) :=
  [("Acne", 8), ("Facial Hair", 12), ("Weight Gain", 10), ("Hair Thinning", 10)]

/-- Python `d.get(k, default)` on a string-keyed dict of naturals. -/
def dictGet (d : List (String × Nat)) (k : String) (d0 : Nat) : Nat :=
  match d with
  | [] => d0
  | (k', v) :: rest => if k' = k then v else dictGet rest k d0

/-- Python `d[k]` lookup on a string-keyed dict of strings (`length_map`). -/
def dictFind? (d : List (String × String)) (k : String) : Option String :=
  match d with
  | [] => none
  | (k', v) :: rest => if k' = k then some v else dictFind? rest k

/-- Whitespace stripped by Python's `int()` before parsing. -/
def pyWhitespace (c : Char) : Bool :=
  c = ' ' || c = '\t' || c = '\n' || c = '\r' || c = '\x0b' || c = '\x0c'

/-- After a leading digit, Python allows further digits with single
underscores between digits. -/
def pyDigitTail : List Char → Bool
  | [] => true
  | '_' :: c :: rest => c.isDigit && pyDigitTail (c :: rest)
  | c :: rest => c.isDigit && pyDigitTail rest

/-- A valid Python decimal digit run: nonempty, starts with a digit,
underscores only between digits. -/
def pyDigitRun : List Char → Bool
  | [] => false
  | c :: rest => c.isDigit && pyDigitTail rest

/-- Numeric value of a digit run, skipping underscores. -/
def digitsValue (l : List Char) : Nat :=
  l.foldl (fun a c => if c.isDigit then a * 10 + (c.toNat - '0'.toNat) else a) 0

/-- Model of Python `int(s)` for a decimal string: strip surrounding
whitespace, optional single sign, then a digit run; `none` when parsing
would raise `ValueError`. -/
def pyInt? (s : String) : Option Int :=
  let cs := ((s.data.dropWhile pyWhitespace).reverse.dropWhile pyWhitespace).reverse
  match cs with
  | '+' :: rest => if pyDigitRun rest then some (Int.ofNat (digitsValue rest)) else none
  | '-' :: rest => if pyDigitRun rest then some (-(Int.ofNat (digitsValue rest))) else none
  | l => if pyDigitRun l then some (Int.ofNat (digitsValue l)) else none

/-- `PCOSScorer.calculate_cycle_length_weight(length, regularity)`:
forced "none" weight when regularity is `'None'`; otherwise parse the
length as an integer and bucket it, with a failed parse absorbed as 0 by
the `except` clause. -/
def calculate_cycle_length_weight (length regularity : String) : Nat :=
  if regularity = "None" then
    dictGet weightsCycleLength "none" 0
  else
    match pyInt? length with
    | none => 0
    | some days =>
      if 21 ≤ days ∧ days ≤ 35 then dictGet weightsCycleLength "normal" 0
      else if days < 21 then dictGet weightsCycleLength "short" 0
      else dictGet weightsCycleLength "long" 0

/-- A user's in-progress answer record: the Python dict stored at
`user_data[user_id]`, with `none` meaning the key is absent. -/
structure UserRecord where
  stage : Option String := none
  cycle_regularity : Option String := none
  cycle_length : Option String := none
  symptoms : Option (List String) := none
deriving DecidableEq, Repr

/-- The empty dict `{}` (as written by `/start` and by `generate_report`). -/
def emptyRecord : UserRecord := {}

/-- `PCOSScorer.calculate_total_score(data)`: regularity weight
(`.get` with default `'Regular'`) plus cycle-length weight (default
length `'28'`) plus the summed symptom weights (default `[]`), then
`min(·, 100)` (see the header note on the float round trip). -/
def calculate_total_score (data : UserRecord) : Nat :=
  let regularity := data.cycle_regularity.getD "Regular"
  let score1 := dictGet weightsCycleRegularity regularity 0
  let cycle_length := data.cycle_length.getD "28"
  let score2 := score1 + calculate_cycle_length_weight cycle_length regularity
  let symptoms := data.symptoms.getD []
  let score3 := symptoms.foldl (fun s sym => s + dictGet weightsSymptoms sym 0) score2
  min score3 100

/-- `PCOSScorer.get_risk_category(percentage)`. -/
def get_risk_category (percentage : Nat) : String :=
  if percentage < 30 then "Low"
  else if percentage ≤ 70 then "Medium"
  else "High"

/-- The global `user_data` dict keyed by user id, as an association list
(most recent bindings replace in place, new keys are appended, nothing is
ever deleted — exactly a Python dict's observable behaviour here). -/
abbrev UserData := List (Nat × UserRecord)

/-- Python `user_id in user_data` / `user_data[user_id]` read. -/
def UserData.get : UserData → Nat → Option UserRecord
  | [], _ => none
  | (k', v) :: rest, k => if k' = k then some v else UserData.get rest k

/-- Python `user_data[user_id] = v` assignment. -/
def UserData.set : UserData → Nat → UserRecord → UserData
  | [], k, v => [(k, v)]
  | (k', v') :: rest, k, v =>
    if k' = k then (k, v) :: rest else (k', v') :: UserData.set rest k v

/-- Prompt sent by `start_assessment` (question 1/3). -/
def q1_prompt : String :=
  "🩺 **PCOS Risk Assessment**\n\n**Question 1/3:**\nHow would you describe your menstrual cycle?"

/-- Prompt sent by `handle_cycle_regularity` (question 2/3). -/
def q2_prompt : String :=
  "**Question 2/3:**\nWhat is your typical cycle length (in days)?"

/-- Prompt sent by `ask_symptoms` (question 3/3). -/
def q3_prompt : String :=
  "**Question 3/3:**\nDo you experience any of these symptoms?\n\n(Select one at a time, then click 'Done' when finished)"

/-- The final report of `generate_report`, abbreviated to the computed
percentage and risk category (the source interpolates these into a long
markdown template together with the current date and the recommendation
text of `get_recommendations`; only the score and category carry logic). -/
def report_message (percentage : Nat) (risk_category : String) : String :=
  "REPORT " ++ toString percentage ++ " " ++ risk_category

/-- `start(message)` for the `/start` command: overwrites the record with
the empty dict and sends the welcome text. -/
def start (ud : UserData) (user_id : Nat) : UserData × List String :=
  (UserData.set ud user_id emptyRecord, ["WELCOME"])

/-- `start_assessment(message)` for the `/assess` command: overwrites the
record with `{'stage': 'cycle_regularity'}` and asks question 1. -/
def start_assessment (ud : UserData) (user_id : Nat) : UserData × List String :=
  (UserData.set ud user_id { emptyRecord with stage := some "cycle_regularity" }, [q1_prompt])

/-- `generate_report(message)`: score the record, emit the report, then
clear the user's entry to the empty dict (`user_data[user_id] = {}`). -/
def generate_report (r : UserRecord) : UserRecord × List String :=
  let percentage := calculate_total_score r
  let risk_category := get_risk_category percentage
  (emptyRecord, [report_message percentage risk_category])

/-- `ask_symptoms(message)`: set the stage to `'symptoms'` and ask
question 3. -/
def ask_symptoms (r : UserRecord) : UserRecord × List String :=
  ({ r with stage := some "symptoms" }, [q3_prompt])

/-- `handle_cycle_regularity(message)`: reject anything outside the three
options with a re-prompt; otherwise store the answer, advance the stage,
and on `'None'` force the length to `'0'` and skip to the symptoms
question. -/
def handle_cycle_regularity (r : UserRecord) (text : String) : UserRecord × List String :=
  if text ∉ ["Regular", "Irregular", "None"] then
    (r, ["Please select from the options provided."])
  else
    let r1 := { r with cycle_regularity := some text, stage := some "cycle_length" }
    if text = "None" then
      ask_symptoms { r1 with cycle_length := some "0" }
    else
      (r1, [q2_prompt])

/-- `length_map` inside `handle_cycle_length`. -/
def length_map : List (String × String) :=
  [("Less than 21", "20"), ("21-35 (Normal)", "28"),
   ("More than 35", "40"), ("Variable/Unsure", "35")]

/-- `handle_cycle_length(message)`: canned label or raw integer string;
anything else is re-prompted without touching the record. -/
def handle_cycle_length (r : UserRecord) (text : String) : UserRecord × List String :=
  match dictFind? length_map text with
  | some v => ask_symptoms { r with cycle_length := some v }
  | none =>
    match pyInt? text with
    | some days => ask_symptoms { r with cycle_length := some (toString days) }
    | none => (r, ["Please provide a valid response."])

/-- `handle_symptoms(message)`: initialize the symptom list when the key
is absent, then terminal token → report, known symptom → idempotent
append with distinct acknowledgements, anything else → re-prompt. -/
def handle_symptoms (r : UserRecord) (text : String) : UserRecord × List String :=
  let r1 := if r.symptoms = none then { r with symptoms := some [] } else r
  let syms := r1.symptoms.getD []
  if text = "Done" ∨ text = "None of these" then
    generate_report r1
  else if text ∈ ["Acne", "Facial Hair", "Weight Gain", "Hair Thinning"] then
    if text ∉ syms then
      ({ r1 with symptoms := some (syms ++ [text]) },
       ["✅ " ++ text ++ " added. Select more or click 'Done'."])
    else
      (r1, [text ++ " already selected."])
  else
    (r1, ["Please select from the options."])

/-- `handle_responses(message)`, the catch-all dispatcher: no record →
"no active session" message; otherwise dispatch on `record.get('stage')`,
and fall through silently when the stage matches no handler. -/
def handle_responses (ud : UserData) (user_id : Nat) (text : String) : UserData × List String :=
  match UserData.get ud user_id with
  | none => (ud, ["Please start with /assess command"])
  | some r =>
    let stage := r.stage
    if stage = some "cycle_regularity" then
      let p := handle_cycle_regularity r text
      (UserData.set ud user_id p.1, p.2)
    else if stage = some "cycle_length" then
      let p := handle_cycle_length r text
      (UserData.set ud user_id p.1, p.2)
    else if stage = some "symptoms" then
      let p := handle_symptoms r text
      (UserData.set ud user_id p.1, p.2)
    else
      (ud, [])

/-- The inputs the handler of a given stage rejects with a re-prompt,
read off the reject branches of `handle_cycle_regularity`,
`handle_cycle_length` and `handle_symptoms`. -/
def invalidFor (stage text : String) : Prop :=
  if stage = "cycle_regularity" then text ∉ ["Regular", "Irregular", "None"]
  else if stage = "cycle_length" then dictFind? length_map text = none ∧ pyInt? text = none
  else if stage = "symptoms" then
    text ∉ ["Done", "None of these", "Acne", "Facial Hair", "Weight Gain", "Hair Thinning"]
  else False

instance (stage text : String) : Decidable (invalidFor stage text) := by
  unfold invalidFor
  infer_instance

/-- The re-prompt each stage's handler sends on rejected input. -/
def repromptFor (stage : String) : String :=
  if stage = "cycle_regularity" then "Please select from the options provided."
  else if stage = "cycle_length" then "Please provide a valid response."
  else "Please select from the options."

/- ### Helper lemmas -/

/-- Reading back the key just written. -/
theorem UserData.get_set (ud : UserData) (k : Nat) (v : UserRecord) :
    UserData.get (UserData.set ud k v) k = some v := by
  induction ud with
  | nil => simp [UserData.set, UserData.get]
  | cons p rest ih =>
    obtain ⟨k', v'⟩ := p
    by_cases h : k' = k
    · simp [UserData.set, UserData.get, h]
    · simp [UserData.set, UserData.get, h, ih]

/-- The symptom fold of `calculate_total_score` is the sum of the mapped
weights. -/
theorem foldl_symptom_weights (l : List String) (init : Nat) :
    l.foldl (fun s sym => s + dictGet weightsSymptoms sym 0) init
      = init + (l.map (fun sym => dictGet weightsSymptoms sym 0)).sum := by
  induction l generalizing init with
  | nil => simp
  | cons x xs ih =>
    simp only [List.foldl_cons, List.map_cons, List.sum_cons, ih]
    omega

/-- A record with no `stage` key dispatches to no handler: no message,
no state change. -/
theorem handle_responses_no_stage (ud : UserData) (user_id : Nat) (r : UserRecord)
    (text : String) (hget : UserData.get ud user_id = some r) (hstage : r.stage = none) :
    handle_responses ud user_id text = (ud, []) := by
  unfold handle_responses
  rw [hget]
  simp [hstage]

/- ### Claims -/

/-- C2: for every answer record, `calculate_total_score` equals the
regularity weight plus the cycle-length weight plus the summed weights of
the selected symptoms, clamped to a maximum of 100, and the result lies
in [0, 100]. -/
theorem c2_score_is_clamped_weight_sum (d : UserRecord) :
    calculate_total_score d =
      min (dictGet weightsCycleRegularity (d.cycle_regularity.getD "Regular") 0
           + calculate_cycle_length_weight (d.cycle_length.getD "28")
               (d.cycle_regularity.getD "Regular")
           + ((d.symptoms.getD []).map (fun sym => dictGet weightsSymptoms sym 0)).sum) 100
    ∧ calculate_total_score d ≤ 100 := by
  constructor
  · simp only [calculate_total_score, foldl_symptom_weights]
  · unfold calculate_total_score
    exact Nat.min_le_right _ _

/-- C3: `get_risk_category` returns `"Low"` exactly below 30, `"Medium"`
exactly on [30, 70], and `"High"` exactly above 70; the boundary values
30 and 70 classify as `"Medium"`. -/
theorem c3_risk_category_boundaries (p : Nat) :
    (get_risk_category p = "Low" ↔ p < 30)
    ∧ (get_risk_category p = "Medium" ↔ 30 ≤ p ∧ p ≤ 70)
    ∧ (get_risk_category p = "High" ↔ 70 < p) := by
  unfold get_risk_category
  split_ifs with h1 h2
  · exact ⟨iff_of_true rfl h1,
      iff_of_false (by decide) (by omega),
      iff_of_false (by decide) (by omega)⟩
  · exact ⟨iff_of_false (by decide) (by omega),
      iff_of_true rfl ⟨by omega, h2⟩,
      iff_of_false (by decide) (by omega)⟩
  · exact ⟨iff_of_false (by decide) (by omega),
      iff_of_false (by decide) (by omega),
      iff_of_true rfl (by omega)⟩

/-- C4: the cycle-length weight is 30 whenever regularity is `"None"`
regardless of the length string; otherwise the parsed length is weighted
0 on [21, 35], 15 below 21, 25 above 35, and an unparsable length string
contributes weight 0 (the engine, being a total function, never raises). -/
theorem c4_cycle_length_weight_cases :
    (∀ length : String, calculate_cycle_length_weight length "None" = 30)
    ∧ (∀ length regularity : String, regularity ≠ "None" → ∀ d : Int,
        pyInt? length = some d →
        calculate_cycle_length_weight length regularity =
          if 21 ≤ d ∧ d ≤ 35 then 0 else if d < 21 then 15 else 25)
    ∧ (∀ length regularity : String, regularity ≠ "None" → pyInt? length = none →
        calculate_cycle_length_weight length regularity = 0) := by
  refine ⟨fun length => by simp [calculate_cycle_length_weight, dictGet, weightsCycleLength],
    fun length regularity hreg d hd => ?_, fun length regularity hreg hd => ?_⟩
  · have h : calculate_cycle_length_weight length regularity
        = if 21 ≤ d ∧ d ≤ 35 then dictGet weightsCycleLength "normal" 0
          else if d < 21 then dictGet weightsCycleLength "short" 0
          else dictGet weightsCycleLength "long" 0 := by
      unfold calculate_cycle_length_weight
      rw [if_neg hreg, hd]
    rw [h]
    split_ifs <;> decide
  · unfold calculate_cycle_length_weight
    rw [if_neg hreg, hd]

/-- C4 witness: the three branches at concrete inputs. -/
theorem c4_cycle_length_weight_cases_witness :
    calculate_cycle_length_weight "whenever" "None" = 30
    ∧ calculate_cycle_length_weight "35" "Irregular" = 0
    ∧ calculate_cycle_length_weight "whenever" "Irregular" = 0 := by
  refine ⟨c4_cycle_length_weight_cases.1 "whenever", ?_,
    c4_cycle_length_weight_cases.2.2 "whenever" "Irregular" (by decide) (by decide)⟩
  rw [c4_cycle_length_weight_cases.2.1 "35" "Irregular" (by decide) 35 (by decide)]
  decide

/-- C10: `calculate_total_score` is total on arbitrary records: an
unrecognised regularity or symptom contributes weight 0, fully missing
fields score exactly as the defaults Regular / "28" / no symptoms, and
the result is always bounded by 100 (no error path exists: every partial
Python operation in the source is guarded by a default or an `except`). -/
theorem c10_total_score_totality :
    (∀ r : String, r ≠ "Regular" → r ≠ "Irregular" → r ≠ "None" →
      dictGet weightsCycleRegularity r 0 = 0)
    ∧ (∀ s : String, s ≠ "Acne" → s ≠ "Facial Hair" → s ≠ "Weight Gain" →
        s ≠ "Hair Thinning" → dictGet weightsSymptoms s 0 = 0)
    ∧ (∀ d : UserRecord, calculate_total_score d =
        calculate_total_score { stage := d.stage,
                                cycle_regularity := some (d.cycle_regularity.getD "Regular"),
                                cycle_length := some (d.cycle_length.getD "28"),
                                symptoms := some (d.symptoms.getD []) })
    ∧ (∀ d : UserRecord, calculate_total_score d ≤ 100) := by
  refine ⟨fun r h1 h2 h3 => ?_, fun s h1 h2 h3 h4 => ?_, fun d => rfl, fun d => ?_⟩
  · simp [weightsCycleRegularity, dictGet, Ne.symm h1, Ne.symm h2, Ne.symm h3]
  · simp [weightsSymptoms, dictGet, Ne.symm h1, Ne.symm h2, Ne.symm h3, Ne.symm h4]
  · unfold calculate_total_score
    exact Nat.min_le_right _ _

/-- C10 witness: unknown regularity and symptom strings weigh 0, missing
fields default as stated. -/
theorem c10_total_score_totality_witness :
    dictGet weightsCycleRegularity "Sometimes" 0 = 0
    ∧ dictGet weightsSymptoms "Headache" 0 = 0 :=
  ⟨c10_total_score_totality.1 "Sometimes" (by decide) (by decide) (by decide),
   c10_total_score_totality.2.1 "Headache" (by decide) (by decide) (by decide) (by decide)⟩

/-- C6: for a user with no record, `handle_responses` emits exactly the
"no active session" prompt, leaves the user map untouched (in particular
it creates no record), and — being a total function — never raises. -/
theorem c6_no_record_no_session (ud : UserData) (user_id : Nat) (text : String)
    (hget : UserData.get ud user_id = none) :
    handle_responses ud user_id text = (ud, ["Please start with /assess command"]) := by
  unfold handle_responses
  rw [hget]

/-- C6 witness: an unknown user on the empty map. -/
theorem c6_no_record_no_session_witness :
    handle_responses [] 7 "hello" = ([], ["Please start with /assess command"]) :=
  c6_no_record_no_session [] 7 "hello" rfl

/-- C9: a user whose record exists but has no `stage` key (the state
written by `/start`, and the state `generate_report` leaves behind) gets
a silent no-op from `handle_responses`: no message at all and no state
change. -/
theorem c9_stageless_record_silent_noop (ud : UserData) (user_id : Nat) (r : UserRecord)
    (text : String) (hget : UserData.get ud user_id = some r) (hstage : r.stage = none) :
    handle_responses ud user_id text = (ud, []) :=
  handle_responses_no_stage ud user_id r text hget hstage

/-- C9 witness: the state right after `/start`. -/
theorem c9_stageless_record_silent_noop_witness :
    handle_responses (start [] 1).1 1 "hello" = ((start [] 1).1, []) :=
  c9_stageless_record_silent_noop (start [] 1).1 1 emptyRecord "hello" (by decide) rfl

/-- C7: re-selecting an already-chosen symptom leaves the record (hence
the symptom set) unchanged and is acknowledged with a message distinct
from the fresh-addition acknowledgement. -/
theorem c7_symptom_reselect_idempotent (r : UserRecord) (syms : List String) (text : String)
    (hsyms : r.symptoms = some syms)
    (hsel : text ∈ ["Acne", "Facial Hair", "Weight Gain", "Hair Thinning"])
    (hmem : text ∈ syms) :
    handle_symptoms r text = (r, [text ++ " already selected."])
    ∧ text ++ " already selected." ≠ "✅ " ++ text ++ " added. Select more or click 'Done'." := by
  fin_cases hsel <;>
    exact ⟨by simp [handle_symptoms, hsyms, hmem], by decide⟩

/-- C7 witness: re-selecting "Acne". -/
theorem c7_symptom_reselect_idempotent_witness :
    handle_symptoms { stage := some "symptoms", symptoms := some ["Acne"] } "Acne"
      = ({ stage := some "symptoms", symptoms := some ["Acne"] },
         ["Acne" ++ " already selected."])
    ∧ "Acne" ++ " already selected."
        ≠ "✅ " ++ "Acne" ++ " added. Select more or click 'Done'." :=
  c7_symptom_reselect_idempotent _ ["Acne"] "Acne" rfl (by decide) (by decide)

/-- C5 counterexample: at the symptoms stage with no `symptoms` key yet
(the state reached right after `ask_symptoms`), an invalid input is
re-prompted but the record is NOT left entirely unchanged — the handler
first inserts `symptoms = []`. -/
theorem c5_counterexample_symptoms_key_inserted :
    (handle_responses [(1, { emptyRecord with stage := some "symptoms" })] 1 "blah").2
      = ["Please select from the options."]
    ∧ (handle_responses [(1, { emptyRecord with stage := some "symptoms" })] 1 "blah").1
      ≠ [(1, { emptyRecord with stage := some "symptoms" })] := by
  decide

/-- C5 (amended): invalid input at the current stage is answered by
exactly the stage's re-prompt and preserves the stage, the regularity,
the length and the selected symptoms; the only possible record change is
initializing an absent symptom list to the empty list at the symptoms
stage. -/
theorem c5_invalid_input_preserves_record (ud : UserData) (user_id : Nat) (r : UserRecord)
    (s text : String) (hget : UserData.get ud user_id = some r)
    (hstage : r.stage = some s) (hinv : invalidFor s text) :
    ∃ r', UserData.get (handle_responses ud user_id text).1 user_id = some r'
      ∧ r'.stage = r.stage
      ∧ r'.cycle_regularity = r.cycle_regularity
      ∧ r'.cycle_length = r.cycle_length
      ∧ (r'.symptoms = r.symptoms ∨ (r.symptoms = none ∧ r'.symptoms = some []))
      ∧ (handle_responses ud user_id text).2 = [repromptFor s] := by
  unfold invalidFor at hinv
  by_cases hs1 : s = "cycle_regularity"
  · subst hs1
    rw [if_pos rfl] at hinv
    refine ⟨r, ?_, rfl, rfl, rfl, Or.inl rfl, ?_⟩
    · simp [handle_responses, hget, hstage, handle_cycle_regularity, hinv, UserData.get_set]
    · simp [handle_responses, hget, hstage, handle_cycle_regularity, hinv, repromptFor]
  · rw [if_neg hs1] at hinv
    by_cases hs2 : s = "cycle_length"
    · subst hs2
      rw [if_pos rfl] at hinv
      refine ⟨r, ?_, rfl, rfl, rfl, Or.inl rfl, ?_⟩
      · simp [handle_responses, hget, hstage, handle_cycle_length, hinv.1, hinv.2,
          UserData.get_set]
      · simp [handle_responses, hget, hstage, handle_cycle_length, hinv.1, hinv.2, repromptFor]
    · rw [if_neg hs2] at hinv
      by_cases hs3 : s = "symptoms"
      · subst hs3
        rw [if_pos rfl] at hinv
        have h1 : ¬(text = "Done" ∨ text = "None of these") := by
          simp only [List.mem_cons, List.not_mem_nil, or_false] at hinv
          tauto
        have h2 : text ∉ ["Acne", "Facial Hair", "Weight Gain", "Hair Thinning"] := by
          simp only [List.mem_cons, List.not_mem_nil, or_false] at hinv ⊢
          tauto
        cases hsymsEq : r.symptoms with
        | none =>
          refine ⟨{ r with symptoms := some [] }, ?_, rfl, rfl, rfl,
            Or.inr ⟨rfl, rfl⟩, ?_⟩
          · simp [handle_responses, hget, hstage, handle_symptoms, hsymsEq, h1, h2,
              UserData.get_set]
          · simp [handle_responses, hget, hstage, handle_symptoms, hsymsEq, h1, h2, repromptFor]
        | some l =>
          refine ⟨r, ?_, rfl, rfl, rfl, Or.inl hsymsEq, ?_⟩
          · simp [handle_responses, hget, hstage, handle_symptoms, hsymsEq, h1, h2,
              UserData.get_set]
          · simp [handle_responses, hget, hstage, handle_symptoms, hsymsEq, h1, h2, repromptFor]
      · rw [if_neg hs3] at hinv
        exact hinv.elim

/-- C5 witness: an invalid answer at the regularity stage. -/
theorem c5_invalid_input_preserves_record_witness :
    ∃ r', UserData.get (handle_responses
        [(1, { emptyRecord with stage := some "cycle_regularity" })] 1 "maybe").1 1 = some r'
      ∧ r'.stage = ({ emptyRecord with stage := some "cycle_regularity" } : UserRecord).stage
      ∧ r'.cycle_regularity
        = ({ emptyRecord with stage := some "cycle_regularity" } : UserRecord).cycle_regularity
      ∧ r'.cycle_length
        = ({ emptyRecord with stage := some "cycle_regularity" } : UserRecord).cycle_length
      ∧ (r'.symptoms = ({ emptyRecord with stage := some "cycle_regularity" } : UserRecord).symptoms
         ∨ (({ emptyRecord with stage := some "cycle_regularity" } : UserRecord).symptoms = none
            ∧ r'.symptoms = some []))
      ∧ (handle_responses [(1, { emptyRecord with stage := some "cycle_regularity" })] 1
          "maybe").2 = [repromptFor "cycle_regularity"] :=
  c5_invalid_input_preserves_record
    [(1, { emptyRecord with stage := some "cycle_regularity" })] 1
    { emptyRecord with stage := some "cycle_regularity" } "cycle_regularity" "maybe"
    rfl rfl (by decide)

/-- C1 counterexample: after a terminal report, the user's record is NOT
absent (`generate_report` writes back the empty dict instead of deleting
the key), and a subsequent input does NOT produce the "no active session"
prompt — it is a silent no-op. -/
theorem c1_counterexample_record_not_absent :
    (handle_responses [(1, { emptyRecord with stage := some "symptoms" })] 1 "Done").2
      = [report_message 0 "Low"]
    ∧ UserData.get
        (handle_responses [(1, { emptyRecord with stage := some "symptoms" })] 1 "Done").1 1
      ≠ none
    ∧ (handle_responses
        (handle_responses [(1, { emptyRecord with stage := some "symptoms" })] 1 "Done").1
        1 "hi").2 ≠ ["Please start with /assess command"] := by
  decide

/-- C1 (amended): after a terminal report the user's record is reset to
the empty record (still present in the map), and a subsequent
`handle_responses` for that user without a new assessment is a silent
no-op: it emits no message and changes nothing. -/
theorem c1_after_report_silent_noop (ud : UserData) (user_id : Nat) (r : UserRecord)
    (text next : String) (hget : UserData.get ud user_id = some r)
    (hstage : r.stage = some "symptoms")
    (hterm : text = "Done" ∨ text = "None of these") :
    (∃ p c, (handle_responses ud user_id text).2 = [report_message p c])
    ∧ UserData.get (handle_responses ud user_id text).1 user_id = some emptyRecord
    ∧ handle_responses (handle_responses ud user_id text).1 user_id next
        = ((handle_responses ud user_id text).1, []) := by
  have hstep : handle_responses ud user_id text
      = (UserData.set ud user_id emptyRecord,
         [report_message
            (calculate_total_score
              (if r.symptoms = none then { r with symptoms := some [] } else r))
            (get_risk_category (calculate_total_score
              (if r.symptoms = none then { r with symptoms := some [] } else r)))]) := by
    rcases hterm with h | h <;> subst h <;>
      simp [handle_responses, hget, hstage, handle_symptoms, generate_report]
  have hget' : UserData.get (handle_responses ud user_id text).1 user_id = some emptyRecord := by
    rw [hstep]
    exact UserData.get_set ud user_id emptyRecord
  exact ⟨⟨_, _, by rw [hstep]⟩, hget',
    handle_responses_no_stage _ _ _ next hget' rfl⟩

/-- C1 witness: a concrete one-user session ended by "Done". -/
theorem c1_after_report_silent_noop_witness :
    (∃ p c, (handle_responses [(1, { emptyRecord with stage := some "symptoms" })] 1
        "Done").2 = [report_message p c])
    ∧ UserData.get
        (handle_responses [(1, { emptyRecord with stage := some "symptoms" })] 1 "Done").1 1
      = some emptyRecord
    ∧ handle_responses
        (handle_responses [(1, { emptyRecord with stage := some "symptoms" })] 1 "Done").1
        1 "hi"
      = ((handle_responses [(1, { emptyRecord with stage := some "symptoms" })] 1 "Done").1,
         []) :=
  c1_after_report_silent_noop [(1, { emptyRecord with stage := some "symptoms" })] 1
    { emptyRecord with stage := some "symptoms" } "Done" "hi" rfl rfl (Or.inl rfl)

/-- C8 counterexample: at the end of the full walk /assess → Irregular →
"35" → Acne → Done, the user's record is NOT absent from the map. -/
theorem c8_counterexample_record_present_after_walk :
    UserData.get (handle_responses (handle_responses (handle_responses (handle_responses
      (start_assessment [] 1).1 1 "Irregular").1 1 "35").1 1 "Acne").1 1 "Done").1 1
      ≠ none := by
  decide

/-- C8 (amended): the full walk /assess → Irregular → "35" → Acne → Done
deterministically scores 43 (35 for Irregular, 0 for the in-band length
35, 8 for Acne) with category Medium, emits that report, and leaves the
user's record reset to the empty record (still present) immediately
after. -/
theorem c8_full_walk_scores_43_medium :
    calculate_total_score { stage := some "symptoms", cycle_regularity := some "Irregular",
                            cycle_length := some "35", symptoms := some ["Acne"] } = 43
    ∧ get_risk_category 43 = "Medium"
    ∧ (handle_responses (handle_responses (handle_responses (handle_responses
        (start_assessment [] 1).1 1 "Irregular").1 1 "35").1 1 "Acne").1 1 "Done").2
      = [report_message 43 "Medium"]
    ∧ UserData.get (handle_responses (handle_responses (handle_responses (handle_responses
        (start_assessment [] 1).1 1 "Irregular").1 1 "35").1 1 "Acne").1 1 "Done").1 1
      = some emptyRecord := by
  decide

end PCOSBot
